import Mathlib

/-!
Shallow embedding of `src/app/services/expense.service.ts` (ExpenseService):
an Ionic/Angular service coordinating expense records, their receipt photos,
a record store, and the Capacitor filesystem/camera plugins.

External collaborators (Capacitor platform queries, filesystem results,
the storage service, timestamps) are modelled by an explicit `Env` of
deterministic response functions; filesystem side effects are collected in
an explicit call log. JavaScript truthiness on optional string fields
(`null`/`undefined`/`""` falsy) is modelled by `optTruthy`.
-/

/-- A receipt photo (the `Photo` model embedded in each expense):
`name` is the stored filename, `tempPath` the temporary capture reference,
`filePath` the persisted reference, `webviewPath` the display reference. -/
structure Receipt where
  name : Option String
  tempPath : Option String
  filePath : Option String
  webviewPath : Option String
  deriving Repr, DecidableEq

/-- An expense record: the timestamp identifier (possibly still `undefined`)
and its receipt. Other descriptive fields play no role in the service. -/
structure Expense where
  id : Option Nat
  receipt : Receipt
  deriving Repr, DecidableEq

/-- JavaScript truthiness of an optional string field:
`null`/`undefined` and the empty string are falsy. -/
def optTruthy : Option String → Bool
  | none => false
  | some s => s ≠ ""

/-- A call into the Capacitor `Filesystem` collaborator, with the optional
`Directory` argument (`some "Data"` models `Directory.Data`). -/
inductive FsCall where
  | readFile (path : String) (directory : Option String)
  | writeFile (path : String) (data : String) (directory : Option String)
  | deleteFile (path : String) (directory : Option String)
  deriving Repr, DecidableEq

/-- Deterministic model of the environment and collaborators:
platform queries, filesystem responses, `fetch`+blob base64 conversion,
and the current timestamp used by `createExpenseId`. -/
structure Env where
  platform : String
  isNative : Bool
  convertFileSrc : String → String
  readFileData : String → String
  writeFileUri : String → String → String
  fetchBase64 : String → String
  nowMillis : Nat

/-- `createExpenseId()`: `new Date().getTime()`. -/
def createExpenseId (env : Env) : Nat :=
  env.nowMillis

/-- `readAsBase64(filepath)`: on a native platform read the file directly
(no directory argument); otherwise fetch the path and convert the blob. -/
def readAsBase64 (env : Env) (filepath : String) : String × List FsCall :=
  if env.isNative then
    (env.readFileData filepath, [FsCall.readFile filepath none])
  else
    (env.fetchBase64 filepath, [])

/-- Result of `savePicture`: the persisted reference and display reference. -/
structure SavedPicture where
  filepath : String
  webviewPath : String
  deriving Repr, DecidableEq

/-- `savePicture(cameraPhoto)`: convert the photo to base64, write it to the
data directory under `cameraPhoto.name`, then return platform-appropriate
persisted and display references. -/
def savePicture (env : Env) (cameraPhoto : Receipt) : SavedPicture × List FsCall :=
  let r := readAsBase64 env (cameraPhoto.tempPath.getD "")
  let base64Data := r.1
  let name := cameraPhoto.name.getD ""
  let savedFileUri := env.writeFileUri name base64Data
  let calls := r.2 ++ [FsCall.writeFile name base64Data (some "Data")]
  if env.isNative then
    ({ filepath := savedFileUri, webviewPath := env.convertFileSrc savedFileUri }, calls)
  else
    ({ filepath := name, webviewPath := cameraPhoto.tempPath.getD "" }, calls)

/-- The identifier used by `createUpdateExpense`:
`expense.id || this.createExpenseId()` — JavaScript `||` falls through on
`undefined` and on the falsy number `0`. -/
def assignedId (env : Env) (expense : Expense) : Nat :=
  match expense.id with
  | some n => if n = 0 then createExpenseId env else n
  | none => createExpenseId env

/-- `createUpdateExpense(expense)`: if a pending capture reference is set,
name and persist the receipt, record the persisted/display references and
clear the temporary one; then prepend and create (new record) or update
(existing record). Returns the (mutated) record, the new in-memory list and
the filesystem call log. -/
def createUpdateExpense (env : Env) (expenses : List Expense) (expense : Expense) :
    Expense × List Expense × List FsCall :=
  let isNewExpense := expense.id = none
  let expenseId := assignedId env expense
  let step :=
    if optTruthy expense.receipt.tempPath then
      let receipt1 : Receipt := { expense.receipt with name := some (toString expenseId ++ ".jpeg") }
      let saved := savePicture env receipt1
      ({ expense with receipt :=
          { receipt1 with
            filePath := some saved.1.filepath
            tempPath := none
            webviewPath := some saved.1.webviewPath } }, saved.2)
    else (expense, ([] : List FsCall))
  let expense1 := step.1
  if isNewExpense then
    let expense2 : Expense := { expense1 with id := some expenseId }
    (expense2, expense2 :: expenses, step.2)
  else
    (expense1, expenses, step.2)

/-- `getExpense(id)`: `this.expenses.find(expense => expense.id === id)`. -/
def getExpense (expenses : List Expense) (id : Nat) : Option Expense :=
  expenses.find? (fun expense => expense.id = some id)

/-- The template literal building an inline data URL from the base64 payload
read back from the filesystem. -/
def dataUrl (payload : String) : String :=
  "data:image/jpeg;base64," ++ payload

/-- Rewriting one record's display reference during `loadSaved` on web:
read the persisted file and inline it as a base64 data URL. -/
def rewriteWebviewPath (env : Env) (expense : Expense) : Expense :=
  { expense with receipt :=
    { expense.receipt with webviewPath := some (dataUrl (env.readFileData (expense.receipt.filePath.getD ""))) } }

/-- The `for` loop of `loadSaved` on the web platform: for each record with
a persisted receipt path, read the file from the data directory and rewrite
the display reference. -/
def loadLoop (env : Env) : List Expense → List Expense × List FsCall
  | [] => ([], [])
  | expense :: rest =>
    let tail := loadLoop env rest
    if optTruthy expense.receipt.filePath then
      (rewriteWebviewPath env expense :: tail.1,
       FsCall.readFile (expense.receipt.filePath.getD "") (some "Data") :: tail.2)
    else (expense :: tail.1, tail.2)

/-- `loadSaved()`: replace the in-memory list with the store's records;
on the `web` platform rewrite each persisted receipt's display reference to
an inline base64 data URL. Returns the in-memory list and the call log. -/
def loadSaved (env : Env) (stored : List Expense) : List Expense × List FsCall :=
  if env.platform = "web" then loadLoop env stored
  else (stored, [])

/-- `this.expenses.splice(position, 1)`: remove one element at `position`. -/
def spliceOne (expenses : List Expense) (position : Nat) : List Expense :=
  expenses.take position ++ expenses.drop (position + 1)

/-- `removeExpense(expense, position)` (collaborators succeeding): splice the
list, delegate deletion to the store, then delete the receipt file from the
data directory when the receipt has a stored filename. -/
def removeExpense (expenses : List Expense) (expense : Expense) (position : Nat) :
    List Expense × List FsCall :=
  (spliceOne expenses position,
   if optTruthy expense.receipt.name then
     [FsCall.deleteFile (expense.receipt.name.getD "") (some "Data")]
   else [])

/-- A collaborator call made by `removeExpense`: the delegated Record Store
deletion, or the conditional Filesystem file deletion. -/
inductive RemoveEvent where
  | storeDelete (id : Option Nat)
  | fsDeleteFile (path : String) (directory : Option String)
  deriving Repr, DecidableEq

/-- `removeExpense` with fallible collaborators. `storeErr` (resp. `fileErr`)
is the rejection, if any, of the awaited store deletion (resp. file deletion).
The list is spliced before either awaited call; a rejection aborts the rest of
the body and propagates unmodified as the third component. Returns the
in-memory list, the collaborator calls issued, and the propagated error. -/
def removeExpenseFallible (storeErr fileErr : Option String)
    (expenses : List Expense) (expense : Expense) (position : Nat) :
    List Expense × List RemoveEvent × Option String :=
  let spliced := spliceOne expenses position
  match storeErr with
  | some err => (spliced, [RemoveEvent.storeDelete expense.id], some err)
  | none =>
    if optTruthy expense.receipt.name then
      (spliced,
       [RemoveEvent.storeDelete expense.id,
        RemoveEvent.fsDeleteFile (expense.receipt.name.getD "") (some "Data")],
       fileErr)
    else (spliced, [RemoveEvent.storeDelete expense.id], none)

/-- The receipt invariant: at most one of the temporary capture reference and
the persisted reference is active (truthy). -/
def receiptConsistent (r : Receipt) : Bool :=
  !(optTruthy r.tempPath && optTruthy r.filePath)

/-- Recognizer for `Filesystem.writeFile` calls in a call log. -/
def isWriteFileCall : FsCall → Bool
  | FsCall.writeFile _ _ _ => true
  | _ => false

/-! ### Concrete fixtures used to exercise the theorems on closed inputs -/

/-- A concrete native-platform (device) environment. -/
def sampleEnvNative : Env where
  platform := "ios"
  isNative := true
  convertFileSrc := fun s => "capacitor://localhost/_capacitor_file_" ++ s
  readFileData := fun p => "BASE64-" ++ p
  writeFileUri := fun p _ => "file:///DATA/" ++ p
  fetchBase64 := fun p => "FETCH64-" ++ p
  nowMillis := 999

/-- A concrete web-platform (browser) environment. -/
def sampleEnvWeb : Env :=
  { sampleEnvNative with platform := "web", isNative := false }

/-- A receipt fresh from capture: only the temporary reference is set. -/
def samplePendingReceipt : Receipt where
  name := none
  tempPath := some "blob:xyz"
  filePath := none
  webviewPath := some "blob:xyz"

/-- A receipt already persisted under filename `7.jpeg`. -/
def sampleStoredReceipt : Receipt where
  name := some "7.jpeg"
  tempPath := none
  filePath := some "7.jpeg"
  webviewPath := none

/-- A pending receipt that has already been given a filename. -/
def sampleNamedReceipt : Receipt :=
  { samplePendingReceipt with name := some "999.jpeg" }

/-- A record not yet created (no identifier), with a pending capture. -/
def sampleNewExpense : Expense where
  id := none
  receipt := samplePendingReceipt

/-- A record already stored under identifier 7. -/
def sampleStoredExpense : Expense where
  id := some 7
  receipt := sampleStoredReceipt

/-- The identifier-0 edge-case record with a pending capture. -/
def sampleZeroIdExpense : Expense where
  id := some 0
  receipt := samplePendingReceipt

/-- `optTruthy` of an absent reference is false. -/
theorem optTruthy_none : optTruthy none = false := rfl

/-! ### Claim theorems -/

/-- C5: for every in-memory list and every valid position `p`, the remove
operation shrinks the list by exactly one, removes the record at position
`p`, and keeps every remaining record in its relative order. -/
theorem removeExpense_removes_at_position (expenses : List Expense)
    (expense : Expense) (p : Nat) (hp : p < expenses.length) :
    ((removeExpense expenses expense p).1.length = expenses.length - 1) ∧
    (∀ i, i < p → (removeExpense expenses expense p).1[i]? = expenses[i]?) ∧
    (∀ i, p ≤ i → (removeExpense expenses expense p).1[i]? = expenses[i + 1]?) := by
  have hsp : (removeExpense expenses expense p).1 = expenses.eraseIdx p := by
    simp [removeExpense, spliceOne, List.eraseIdx_eq_take_drop_succ]
  refine ⟨?_, ?_, ?_⟩
  · rw [hsp, List.length_eraseIdx]
    simp [hp]
  · intro i hi
    rw [hsp, List.getElem?_eraseIdx_of_lt _ _ _ hi]
  · intro i hi
    rw [hsp, List.getElem?_eraseIdx_of_ge _ _ _ hi]

/-- C5 witness: removing position 0 from a concrete two-element list leaves
one element. -/
theorem removeExpense_removes_at_position_witness :
    0 < ([sampleStoredExpense, sampleNewExpense] : List Expense).length ∧
    (removeExpense [sampleStoredExpense, sampleNewExpense] sampleStoredExpense 0).1.length
      = 2 - 1 := by
  refine ⟨by decide, ?_⟩
  have h := removeExpense_removes_at_position
    [sampleStoredExpense, sampleNewExpense] sampleStoredExpense 0 (by decide)
  simpa using h.1

/-- C6: removing a record whose receipt has a stored (truthy) filename issues
exactly one Filesystem delete for that filename in the data directory, and
removing a record with no stored filename issues no file-delete call. -/
theorem removeExpense_file_delete_calls (expenses : List Expense)
    (expense : Expense) (p : Nat) :
    (∀ s, expense.receipt.name = some s → s ≠ "" →
      (removeExpense expenses expense p).2 = [FsCall.deleteFile s (some "Data")]) ∧
    (optTruthy expense.receipt.name = false → (removeExpense expenses expense p).2 = []) := by
  constructor
  · intro s hs hne
    simp [removeExpense, hs, optTruthy, hne]
  · intro h
    simp [removeExpense, h]

/-- C6 witness: concrete records with and without a stored filename. -/
theorem removeExpense_file_delete_calls_witness :
    (removeExpense [sampleStoredExpense] sampleStoredExpense 0).2
      = [FsCall.deleteFile "7.jpeg" (some "Data")] ∧
    (removeExpense [sampleNewExpense] sampleNewExpense 0).2 = [] := by
  constructor
  · exact (removeExpense_file_delete_calls [sampleStoredExpense] sampleStoredExpense 0).1
      "7.jpeg" rfl (by decide)
  · exact (removeExpense_file_delete_calls [sampleNewExpense] sampleNewExpense 0).2 rfl

/-- C4: creating a record whose identifier is absent prepends the (mutated)
record at position 0 and shifts every prior record one position later,
preserving their relative order. -/
theorem createUpdateExpense_new_prepends (env : Env) (expenses : List Expense)
    (expense : Expense) (h : expense.id = none) :
    (createUpdateExpense env expenses expense).2.1
      = (createUpdateExpense env expenses expense).1 :: expenses ∧
    ((createUpdateExpense env expenses expense).2.1)[0]?
      = some (createUpdateExpense env expenses expense).1 ∧
    (∀ i, ((createUpdateExpense env expenses expense).2.1)[i + 1]? = expenses[i]?) ∧
    (createUpdateExpense env expenses expense).2.1.length = expenses.length + 1 := by
  cases htp : optTruthy expense.receipt.tempPath <;>
    simp [createUpdateExpense, h, htp]

/-- C4 witness: creating a concrete new record on the web environment. -/
theorem createUpdateExpense_new_prepends_witness :
    (createUpdateExpense sampleEnvWeb [sampleStoredExpense] sampleNewExpense).2.1
      = (createUpdateExpense sampleEnvWeb [sampleStoredExpense] sampleNewExpense).1
          :: [sampleStoredExpense] := by
  exact (createUpdateExpense_new_prepends sampleEnvWeb [sampleStoredExpense]
    sampleNewExpense rfl).1

/-- Helper for C7: `find?` returns the unique match when identifiers are
pairwise distinct. -/
theorem getExpense_of_mem_of_pairwise (expenses : List Expense) (id : Nat)
    (e : Expense) (he : e ∈ expenses) (heid : e.id = some id)
    (hpw : expenses.Pairwise (fun a b => a.id ≠ b.id)) :
    getExpense expenses id = some e := by
  induction expenses with
  | nil => cases he
  | cons a rest ih =>
    have hpw' := List.pairwise_cons.mp hpw
    rcases List.mem_cons.mp he with h | h
    · subst h
      simp [getExpense, List.find?_cons, heid]
    · have hane : a.id ≠ some id := by
        intro hc
        exact hpw'.1 e h (hc.trans heid.symm)
      simpa [getExpense, List.find?_cons, hane] using ih h hpw'.2

/-- C7: lookup by identifier returns a record of the list bearing that
identifier when it hits; misses exactly when no record bears the identifier;
returns the unique matching record when identifiers are pairwise distinct;
and never cross-returns a record bearing a different identifier. -/
theorem getExpense_lookup (expenses : List Expense) (id : Nat) :
    (∀ e, getExpense expenses id = some e → e ∈ expenses ∧ e.id = some id) ∧
    (getExpense expenses id = none ↔ ∀ e ∈ expenses, e.id ≠ some id) ∧
    (∀ e, e ∈ expenses → e.id = some id →
      expenses.Pairwise (fun a b => a.id ≠ b.id) → getExpense expenses id = some e) ∧
    (∀ a b, getExpense expenses id = some b → a.id ≠ some id → b ≠ a) := by
  refine ⟨?_, ?_, ?_, ?_⟩
  · intro e h
    exact ⟨List.mem_of_find?_eq_some h, by simpa using List.find?_some h⟩
  · rw [getExpense, List.find?_eq_none]
    simp
  · intro e he heid hpw
    exact getExpense_of_mem_of_pairwise expenses id e he heid hpw
  · intro a b hb hane hba
    have hbid : b.id = some id := by simpa using List.find?_some hb
    exact hane (hba ▸ hbid)

/-- C7 witness: a concrete hit, a concrete miss, and no cross-return among
records 7 and 999. -/
theorem getExpense_lookup_witness :
    getExpense [sampleStoredExpense] 7 = some sampleStoredExpense ∧
    (getExpense [sampleStoredExpense] 8 = none ↔
      ∀ e ∈ [sampleStoredExpense], e.id ≠ some 8) := by
  constructor
  · exact (getExpense_lookup [sampleStoredExpense] 7).2.2.1 sampleStoredExpense
      (by decide) rfl (by simp)
  · exact (getExpense_lookup [sampleStoredExpense] 8).2.1

/-- C3: on a native platform, `savePicture` returns the write collaborator's
URI as the persisted reference and its `convertFileSrc` translation as the
display reference; on a non-native platform it returns the target filename as
the persisted reference and the original temporary capture path, unchanged,
as the display reference. -/
theorem savePicture_platform_refs (env : Env) (cameraPhoto : Receipt) :
    (env.isNative = true →
      (savePicture env cameraPhoto).1.filepath
        = env.writeFileUri (cameraPhoto.name.getD "")
            (env.readFileData (cameraPhoto.tempPath.getD "")) ∧
      (savePicture env cameraPhoto).1.webviewPath
        = env.convertFileSrc (savePicture env cameraPhoto).1.filepath) ∧
    (env.isNative = false →
      (savePicture env cameraPhoto).1.filepath = cameraPhoto.name.getD "" ∧
      (savePicture env cameraPhoto).1.webviewPath = cameraPhoto.tempPath.getD "") := by
  constructor <;> intro h <;> simp [savePicture, readAsBase64, h]

/-- C3 witness: concrete captures on the device and browser environments. -/
theorem savePicture_platform_refs_witness :
    (savePicture sampleEnvNative sampleNamedReceipt).1.filepath
      = "file:///DATA/999.jpeg" ∧
    (savePicture sampleEnvWeb sampleNamedReceipt).1.filepath = "999.jpeg" ∧
    (savePicture sampleEnvWeb sampleNamedReceipt).1.webviewPath = "blob:xyz" := by
  refine ⟨?_, ?_, ?_⟩
  · rw [((savePicture_platform_refs sampleEnvNative sampleNamedReceipt).1 rfl).1]
    rfl
  · rw [((savePicture_platform_refs sampleEnvWeb sampleNamedReceipt).2 rfl).1]
    rfl
  · rw [((savePicture_platform_refs sampleEnvWeb sampleNamedReceipt).2 rfl).2]
    rfl

/-- C1: create-or-update on a record carrying a pending (truthy) capture
reference sets the persisted reference, sets the display reference, clears
the pending reference, and issues exactly one Filesystem write whose filename
is the assigned identifier followed by `.jpeg`. -/
theorem createUpdateExpense_pending_capture (env : Env) (expenses : List Expense)
    (expense : Expense) (h : optTruthy expense.receipt.tempPath = true) :
    ((createUpdateExpense env expenses expense).1.receipt.filePath.isSome = true) ∧
    ((createUpdateExpense env expenses expense).1.receipt.webviewPath.isSome = true) ∧
    ((createUpdateExpense env expenses expense).1.receipt.tempPath = none) ∧
    (∃ data, ((createUpdateExpense env expenses expense).2.2).filter isWriteFileCall
      = [FsCall.writeFile (toString (assignedId env expense) ++ ".jpeg") data (some "Data")]) := by
  refine ⟨?_, ?_, ?_,
    ⟨if env.isNative then env.readFileData (expense.receipt.tempPath.getD "")
      else env.fetchBase64 (expense.receipt.tempPath.getD ""), ?_⟩⟩ <;>
  cases hn : env.isNative <;> cases hid : expense.id <;>
    simp [createUpdateExpense, savePicture, readAsBase64, isWriteFileCall, h, hn, hid]

/-- C1 witness: creating a concrete new record with a pending capture on the
native environment writes exactly `999.jpeg`. -/
theorem createUpdateExpense_pending_capture_witness :
    optTruthy sampleNewExpense.receipt.tempPath = true ∧
    (createUpdateExpense sampleEnvNative [] sampleNewExpense).1.receipt.tempPath = none := by
  refine ⟨by decide, ?_⟩
  exact (createUpdateExpense_pending_capture sampleEnvNative [] sampleNewExpense
    (by decide)).2.2.1

/-- Helper for C2: the web-platform loop maps each record to its display
rewrite exactly when its persisted receipt path is truthy. -/
theorem loadLoop_fst (env : Env) (l : List Expense) :
    (loadLoop env l).1
      = l.map (fun e => if optTruthy e.receipt.filePath then rewriteWebviewPath env e else e) := by
  induction l with
  | nil => rfl
  | cons e rest ih =>
    simp only [loadLoop, List.map_cons]
    split <;> simp [ih]

/-- C2: load fills the in-memory list from the store (same length, pointwise
correspondence); on the web platform every record with a truthy persisted
receipt path has its display reference rewritten to the base64 data URL of
the file-read collaborator's payload, and records without one are returned
unchanged; off the web platform load returns the stored records unchanged
and performs no filesystem call. -/
theorem loadSaved_platform_behavior (env : Env) (stored : List Expense) :
    ((loadSaved env stored).1.length = stored.length) ∧
    (env.platform = "web" →
      ∀ (i : Nat) (e : Expense), stored[i]? = some e →
        (optTruthy e.receipt.filePath = true →
          ∃ e', (loadSaved env stored).1[i]? = some e' ∧
            e'.receipt.webviewPath
              = some (dataUrl (env.readFileData (e.receipt.filePath.getD ""))) ∧
            e'.id = e.id ∧ e'.receipt.name = e.receipt.name ∧
            e'.receipt.filePath = e.receipt.filePath ∧
            e'.receipt.tempPath = e.receipt.tempPath) ∧
        (optTruthy e.receipt.filePath = false →
          (loadSaved env stored).1[i]? = some e)) ∧
    (env.platform ≠ "web" → loadSaved env stored = (stored, [])) := by
  refine ⟨?_, ?_, ?_⟩
  · by_cases hw : env.platform = "web"
    · simp [loadSaved, hw, loadLoop_fst]
    · simp [loadSaved, hw]
  · intro hw i e hie
    have hmap : (loadSaved env stored).1
        = stored.map (fun e => if optTruthy e.receipt.filePath then rewriteWebviewPath env e else e) := by
      simp [loadSaved, hw, loadLoop_fst]
    constructor
    · intro ht
      refine ⟨rewriteWebviewPath env e, ?_, rfl, rfl, rfl, rfl, rfl⟩
      rw [hmap, List.getElem?_map, hie]
      simp [ht]
    · intro hf
      rw [hmap, List.getElem?_map, hie]
      simp [hf]
  · intro hw
    simp [loadSaved, hw]

/-- C2 witness: loading a concrete stored record on the web environment
inlines its receipt bytes; loading it on the device environment returns the
list unchanged. -/
theorem loadSaved_platform_behavior_witness :
    (∃ e', (loadSaved sampleEnvWeb [sampleStoredExpense]).1[0]? = some e' ∧
      e'.receipt.webviewPath = some (dataUrl "BASE64-7.jpeg")) ∧
    loadSaved sampleEnvNative [sampleStoredExpense] = ([sampleStoredExpense], []) := by
  constructor
  · obtain ⟨e', h1, h2, -⟩ :=
      (((loadSaved_platform_behavior sampleEnvWeb [sampleStoredExpense]).2.1 rfl 0
        sampleStoredExpense rfl).1 (by decide))
    exact ⟨e', h1, h2⟩
  · exact (loadSaved_platform_behavior sampleEnvNative [sampleStoredExpense]).2.2
      (by decide)

/-- C8: the coordinator's operations preserve the receipt invariant (at most
one of the temporary and persisted references active): the record returned by
create-or-update always satisfies it (a persisted pending capture nulls the
temporary reference in the same step), and the in-memory lists produced by
create-or-update, load, and remove contain only invariant-satisfying records
whenever their inputs did. -/
theorem operations_preserve_receipt_invariant (env : Env)
    (expenses stored : List Expense) (expense : Expense) (p : Nat) :
    (receiptConsistent (createUpdateExpense env expenses expense).1.receipt = true) ∧
    ((∀ e ∈ expenses, receiptConsistent e.receipt = true) →
      ∀ e ∈ (createUpdateExpense env expenses expense).2.1,
        receiptConsistent e.receipt = true) ∧
    ((∀ e ∈ stored, receiptConsistent e.receipt = true) →
      ∀ e ∈ (loadSaved env stored).1, receiptConsistent e.receipt = true) ∧
    ((∀ e ∈ expenses, receiptConsistent e.receipt = true) →
      ∀ e ∈ (removeExpense expenses expense p).1,
        receiptConsistent e.receipt = true) := by
  have hres : receiptConsistent (createUpdateExpense env expenses expense).1.receipt = true := by
    cases htp : optTruthy expense.receipt.tempPath <;> cases hid : expense.id <;>
      simp [createUpdateExpense, receiptConsistent, htp, hid, optTruthy_none]
  have hlist : (createUpdateExpense env expenses expense).2.1
        = (createUpdateExpense env expenses expense).1 :: expenses ∨
      (createUpdateExpense env expenses expense).2.1 = expenses := by
    cases htp : optTruthy expense.receipt.tempPath <;> cases hid : expense.id <;>
      simp [createUpdateExpense, htp, hid]
  refine ⟨hres, ?_, ?_, ?_⟩
  · intro hinv e he
    rcases hlist with hl | hl <;> rw [hl] at he
    · rcases List.mem_cons.mp he with rfl | hmem
      · exact hres
      · exact hinv e hmem
    · exact hinv e he
  · intro hinv e he
    by_cases hw : env.platform = "web"
    · rw [show (loadSaved env stored).1 = (loadLoop env stored).1 by
          simp [loadSaved, hw], loadLoop_fst] at he
      obtain ⟨a, ha, rfl⟩ := List.mem_map.mp he
      by_cases ht : optTruthy a.receipt.filePath
      · simpa [ht, receiptConsistent, rewriteWebviewPath] using hinv a ha
      · simpa [ht] using hinv a ha
    · rw [show (loadSaved env stored).1 = stored by simp [loadSaved, hw]] at he
      exact hinv e he
  · intro hinv e he
    rw [show (removeExpense expenses expense p).1 = expenses.eraseIdx p by
        simp [removeExpense, spliceOne, List.eraseIdx_eq_take_drop_succ]] at he
    exact hinv e (List.eraseIdx_subset expenses p he)

/-- C8 witness: a concrete creation with a pending capture ends with a
consistent receipt, and a concrete load on web keeps the list consistent. -/
theorem operations_preserve_receipt_invariant_witness :
    receiptConsistent
      (createUpdateExpense sampleEnvNative [] sampleNewExpense).1.receipt = true := by
  exact (operations_preserve_receipt_invariant sampleEnvNative [] []
    sampleNewExpense 0).1

/-- C9: `removeExpense` is not atomic: the in-memory splice is applied before
either collaborator call regardless of their outcomes; a store-delete
rejection propagates unmodified with no file delete issued; a file-delete
rejection propagates unmodified although the store delete was already issued;
and absent failures the fallible run agrees with `removeExpense`. No branch
restores the pre-splice list. -/
theorem removeExpense_not_atomic (storeErr fileErr : Option String)
    (expenses : List Expense) (expense : Expense) (p : Nat) :
    ((removeExpenseFallible storeErr fileErr expenses expense p).1
      = spliceOne expenses p) ∧
    (∀ err, storeErr = some err →
      (removeExpenseFallible storeErr fileErr expenses expense p).2.2 = some err ∧
      ∀ s d, RemoveEvent.fsDeleteFile s d
        ∉ (removeExpenseFallible storeErr fileErr expenses expense p).2.1) ∧
    (storeErr = none → optTruthy expense.receipt.name = true →
      (removeExpenseFallible storeErr fileErr expenses expense p).2.2 = fileErr ∧
      RemoveEvent.storeDelete expense.id
        ∈ (removeExpenseFallible storeErr fileErr expenses expense p).2.1) ∧
    (storeErr = none → fileErr = none →
      (removeExpenseFallible storeErr fileErr expenses expense p).2.2 = none ∧
      (removeExpenseFallible storeErr fileErr expenses expense p).1
        = (removeExpense expenses expense p).1) := by
  refine ⟨?_, ?_, ?_, ?_⟩
  · cases storeErr <;> cases htn : optTruthy expense.receipt.name <;>
      simp [removeExpenseFallible, htn]
  · rintro err rfl
    simp [removeExpenseFallible]
  · rintro rfl htn
    simp [removeExpenseFallible, htn]
  · rintro rfl rfl
    cases htn : optTruthy expense.receipt.name <;>
      simp [removeExpenseFallible, removeExpense, htn]

/-- C9 witness: with a concrete failing file delete, the error propagates
while the spliced list is already in place. -/
theorem removeExpense_not_atomic_witness :
    (removeExpenseFallible none (some "EPERM") [sampleStoredExpense]
      sampleStoredExpense 0).2.2 = some "EPERM" ∧
    (removeExpenseFallible none (some "EPERM") [sampleStoredExpense]
      sampleStoredExpense 0).1 = spliceOne [sampleStoredExpense] 0 := by
  have h := removeExpense_not_atomic none (some "EPERM") [sampleStoredExpense]
    sampleStoredExpense 0
  exact ⟨(h.2.2.1 rfl (by decide)).1, h.1⟩

/-- C10: for a record with identifier 0 (defined but falsy) and a pending
capture, create-or-update takes the update branch (no prepend, identifier
kept at 0), yet derives the receipt filename from the freshly generated
timestamp identifier, so whenever that timestamp renders differently from 0
the stored filename does not match the record's identifier. -/
theorem createUpdateExpense_zero_id_filename (env : Env) (expenses : List Expense)
    (expense : Expense) (h0 : expense.id = some 0)
    (ht : optTruthy expense.receipt.tempPath = true) :
    ((createUpdateExpense env expenses expense).2.1 = expenses) ∧
    ((createUpdateExpense env expenses expense).1.id = some 0) ∧
    ((createUpdateExpense env expenses expense).1.receipt.name
      = some (toString (createExpenseId env) ++ ".jpeg")) ∧
    (toString (createExpenseId env) ≠ toString (0 : Nat) →
      (createUpdateExpense env expenses expense).1.receipt.name
        ≠ some (toString (0 : Nat) ++ ".jpeg")) := by
  have hname : (createUpdateExpense env expenses expense).1.receipt.name
      = some (toString (createExpenseId env) ++ ".jpeg") := by
    simp [createUpdateExpense, h0, ht, assignedId]
  refine ⟨?_, ?_, hname, ?_⟩
  · simp [createUpdateExpense, h0, ht]
  · simp [createUpdateExpense, h0, ht]
  · intro hne hc
    rw [hname] at hc
    have heq : toString (createExpenseId env) ++ ".jpeg"
        = toString (0 : Nat) ++ ".jpeg" := Option.some.inj hc
    have hdata : (toString (createExpenseId env)).data ++ ".jpeg".data
        = (toString (0 : Nat)).data ++ ".jpeg".data := by
      simpa [String.data_append] using congrArg String.data heq
    exact hne (String.ext (List.append_cancel_right hdata))

/-- C10 witness: the concrete identifier-0 record on the native environment
is stored under `999.jpeg`, not `0.jpeg`. -/
theorem createUpdateExpense_zero_id_filename_witness :
    (createUpdateExpense sampleEnvNative [sampleStoredExpense]
      sampleZeroIdExpense).2.1 = [sampleStoredExpense] ∧
    (createUpdateExpense sampleEnvNative [sampleStoredExpense]
      sampleZeroIdExpense).1.receipt.name ≠ some (toString (0 : Nat) ++ ".jpeg") := by
  have h := createUpdateExpense_zero_id_filename sampleEnvNative
    [sampleStoredExpense] sampleZeroIdExpense rfl (by decide)
  exact ⟨h.1, h.2.2.2 (by decide)⟩
